import Mathlib

/-!
Verification of `db/prod/convert.py`: a TSV → SQL `INSERT` conversion script.

The script reads a tab-separated file with a header row, validates each data
row (four required fields, non-empty after trimming), escapes string values
for embedding in single-quoted SQL literals, and writes one batch
`INSERT INTO profiles (...) VALUES ...;` statement.

Embedding notes:
* Python strings become Lean `String`; `str.replace` with the single-character
  pattern `'` is embedded character by character as `sqlEscapeChars`.
* `csv.DictReader(file, delimiter='\t')` is embedded as `parseTSV`: split the
  content on newlines, take the first line as the header, split every line on
  tabs, and pair header names with values positionally (blank lines are
  skipped, as `DictReader` does; csv quoting is not exercised by this data and
  is not modelled).  A parsed row is an association list from column name to
  raw field value; a missing column yields `none`, matching `dict.get`.
* Python `.strip()` is embedded as `String.trim` (ASCII whitespace).
* The script's console prints are collected in order into a `messages` list,
  and the output file's content into `file : Option String` (`none` meaning
  the output file is never written).
* The surrounding `try/except` is embedded over explicit failure outcomes.
  `FileOutcome` says what opening and reading the input did: success with
  content, `FileNotFoundError`, an open-time error, or an error raised mid
  iteration after some rows were already processed.  `WriteFault` says what
  the output side did: all three `write` calls succeed, `open` of the output
  file raises, or the writes raise after `k` of them succeeded — in which
  case the output file exists and holds exactly the successfully written
  prefix.  `run` is the fault-free-write run; `run_with_fault` is the
  general model.  The per-row `try/except` guards only pure computations in
  the source, so it has no failing case in the embedding.
-/

namespace ConvertProd

/-- Configuration constant `INPUT_FILE` from the source. -/
def INPUT_FILE : String := "data.tsv"

/-- Configuration constant `OUTPUT_FILE` from the source. -/
def OUTPUT_FILE : String := "poblate-prod.sql"

/-- Configuration constant `ADMIN_ID` from the source. -/
def ADMIN_ID : String := "356253258613915663"

/-- Configuration constant `GROUP_ID` from the source. -/
def GROUP_ID : String := "1392882468704489552"

/-- Character-level embedding of Python `str.replace("'", "''")`:
every single-quote character is doubled, all others are kept. -/
def sqlEscapeChars : List Char → List Char
  | [] => []
  | c :: cs =>
    if c = '\'' then '\'' :: '\'' :: sqlEscapeChars cs
    else c :: sqlEscapeChars cs

/-- `escape_sql_string(value)` from the source: `NULL` for `None` or the
empty string, otherwise the value wrapped in single quotes with embedded
single quotes doubled. -/
def escape_sql_string (value : Option String) : String :=
  match value with
  | none => "NULL"
  | some v =>
    if v = "" then "NULL"
    else "'" ++ String.mk (sqlEscapeChars v.data) ++ "'"

/-- A parsed TSV data row, as produced by `csv.DictReader`: an association
list from column name to raw field value. -/
abbrev Row := List (String × String)

/-- `row.get(key)`: first value bound to `key`, if any. -/
def rowGet (row : Row) (key : String) : Option String :=
  (row.find? (fun p => p.1 == key)).map (fun p => p.2)

/-- Python `.strip()`, character by character: drop whitespace from both
ends. -/
def pyStrip (s : String) : String :=
  String.mk
    (((s.data.dropWhile Char.isWhitespace).reverse.dropWhile
        Char.isWhitespace).reverse)

/-- `(row.get(key) or '').strip()` from the source: absent fields become the
empty string, then whitespace is trimmed. -/
def getField (row : Row) (key : String) : String :=
  pyStrip ((rowGet row key).getD "")

/-- The validation `all([discord_id, vrchat_id, vrchat_name, added_at])`:
all four required fields are non-empty after trimming. -/
def validRow (row : Row) : Bool :=
  getField row "discord_id" != "" &&
  getField row "vrchat_id" != "" &&
  getField row "vrchat_name" != "" &&
  getField row "added_at" != ""

/-- The f-string that builds one `VALUES` tuple in the source, with the four
extracted fields as parameters. -/
def values_row (discord_id vrchat_id vrchat_name added_at : String) : String :=
  "(" ++ escape_sql_string (some discord_id) ++ ", " ++
  escape_sql_string (some vrchat_id) ++ ", " ++
  escape_sql_string (some vrchat_name) ++ ", " ++
  escape_sql_string (some added_at) ++ ", CURRENT_TIMESTAMP, " ++
  escape_sql_string (some discord_id) ++ ", " ++
  escape_sql_string (some ADMIN_ID) ++ ", TRUE, 1, " ++
  escape_sql_string (some added_at) ++ ", " ++
  escape_sql_string (some GROUP_ID) ++ ", " ++
  escape_sql_string (some ADMIN_ID) ++ ")"

/-- The per-row loop of `convert_tsv_to_sql`: starting at row number
`rowNum` (the source numbers data rows from 2, the header being line 1),
return the accumulated `values_rows` list and the warning messages printed
for skipped rows, in order. -/
def processRows : List Row → Nat → List String × List String
  | [], _ => ([], [])
  | row :: rest, rowNum =>
    let tail := processRows rest (rowNum + 1)
    if validRow row then
      (values_row (getField row "discord_id") (getField row "vrchat_id")
        (getField row "vrchat_name") (getField row "added_at") :: tail.1,
       tail.2)
    else
      (tail.1,
       ("Warning: Row " ++ toString rowNum ++
        " skipped due to missing required fields") :: tail.2)

/-- The fixed header literal written before the row tuples (the triple-quoted
string in the source, verbatim). -/
def sqlHeader : String :=
  "INSERT INTO profiles (\n    discord_id,\n    vrchat_id,\n    vrchat_name,\n    added_at,\n    updated_at,\n    created_by,\n    updated_by,\n    is_verified,\n    verification_id,\n    verified_at,\n    verified_from,\n    verified_by\n) VALUES\n"

/-- Observable outcome of one run: the output file's content (if written at
all) and the console messages, in print order. -/
structure RunOutput where
  file : Option String
  messages : List String

/-- `convert_tsv_to_sql` after the input has been read and parsed into rows:
process every row, then either write the single statement and report the
record count, or write nothing and report that no records were found. -/
def convert_tsv_to_sql (rows : List Row) : RunOutput :=
  let pr := processRows rows 2
  if pr.1.isEmpty then
    { file := none
      messages := pr.2 ++ ["No valid records found to convert"] }
  else
    { file := some (sqlHeader ++ String.intercalate ",\n" pr.1 ++ ";")
      messages := pr.2 ++
        ["Success! Generated INSERT statement with " ++
           toString pr.1.length ++ " records",
         "Output saved to: " ++ OUTPUT_FILE] }

/-- Split a character list at every occurrence of `sep`; like
`String.splitOn` with a one-character separator, the result is never empty
and adjacent separators yield empty groups. -/
def splitOnChar (sep : Char) : List Char → List (List Char)
  | [] => [[]]
  | c :: cs =>
    if c = sep then [] :: splitOnChar sep cs
    else
      match splitOnChar sep cs with
      | [] => [[c]]
      | g :: gs => (c :: g) :: gs

/-- Split a string at every occurrence of the character `sep`. -/
def splitOnCharS (sep : Char) (s : String) : List String :=
  (splitOnChar sep s.data).map String.mk

/-- `csv.DictReader(file, delimiter='\t')`: first line is the header, each
further non-blank line is split on tabs and paired with the header names. -/
def parseTSV (content : String) : List Row :=
  match splitOnCharS '\n' content with
  | [] => []
  | header :: dataLines =>
    let cols := splitOnCharS '\t' header
    (dataLines.filter (fun l => l != "")).map
      (fun line => cols.zip (splitOnCharS '\t' line))

/-- What opening and reading the input file can do: succeed with content,
raise `FileNotFoundError`, raise some other exception at open time, or
raise mid iteration after a prefix of the data rows was already processed
(their warnings were already printed; no output file was written yet). -/
inductive FileOutcome where
  | ok (content : String)
  | fileNotFound
  | openError (msg : String)
  | readErrorAfter (readRows : List Row) (msg : String)

/-- What the output side can do: the three `output.write` calls all succeed;
`open(OUTPUT_FILE, 'w')` raises before the file is created; or a write
raises after `k` of the calls succeeded, leaving the file partially
written. -/
inductive WriteFault where
  | noFault
  | openFail (msg : String)
  | failAfter (k : Nat) (msg : String)

/-- The three pieces passed to `output.write`, in call order: the header,
the joined tuples, the terminating semicolon. -/
def writePieces (vr : List String) : List String :=
  [sqlHeader, String.intercalate ",\n" vr, ";"]

/-- `convert_tsv_to_sql` after parsing, with an explicit write fault: with
no valid rows nothing is written; otherwise a fault-free run writes all
three pieces and prints the two success messages, a failing `open` leaves
the file absent, and a failing write leaves exactly the successfully
written prefix — in both failure cases the outer `except` prints the
diagnostic and the success messages are skipped. -/
def convert_with_fault (wf : WriteFault) (rows : List Row) : RunOutput :=
  let pr := processRows rows 2
  if pr.1.isEmpty then
    { file := none
      messages := pr.2 ++ ["No valid records found to convert"] }
  else
    match wf with
    | .noFault =>
      { file := some (sqlHeader ++ String.intercalate ",\n" pr.1 ++ ";")
        messages := pr.2 ++
          ["Success! Generated INSERT statement with " ++
             toString pr.1.length ++ " records",
           "Output saved to: " ++ OUTPUT_FILE] }
    | .openFail m =>
      { file := none
        messages := pr.2 ++ ["Error: " ++ m] }
    | .failAfter k m =>
      { file := some (String.join ((writePieces pr.1).take k))
        messages := pr.2 ++ ["Error: " ++ m] }

/-- The whole `convert_tsv_to_sql`, `try/except` included, under an explicit
write fault: on a read-side failure the outer `except` prints a diagnostic
after whatever warnings were already printed, and the output file is never
opened. -/
def run_with_fault (wf : WriteFault) (inp : FileOutcome) : RunOutput :=
  match inp with
  | .ok content => convert_with_fault wf (parseTSV content)
  | .fileNotFound =>
    { file := none
      messages := ["Error: File '" ++ INPUT_FILE ++ "' not found"] }
  | .openError msg =>
    { file := none
      messages := ["Error: " ++ msg] }
  | .readErrorAfter rows msg =>
    { file := none
      messages := (processRows rows 2).2 ++ ["Error: " ++ msg] }

/-- The fault-free-write run of `convert_tsv_to_sql`, `try/except`
included: on success run the conversion; on a read-side failure print a
diagnostic and write no output file. -/
def run (inp : FileOutcome) : RunOutput :=
  match inp with
  | .ok content => convert_tsv_to_sql (parseTSV content)
  | .fileNotFound =>
    { file := none
      messages := ["Error: File '" ++ INPUT_FILE ++ "' not found"] }
  | .openError msg =>
    { file := none
      messages := ["Error: " ++ msg] }
  | .readErrorAfter rows msg =>
    { file := none
      messages := (processRows rows 2).2 ++ ["Error: " ++ msg] }

/-- The source imports `datetime` but never reads the clock.  The ambient
wall-clock time is made an explicit parameter here; the run ignores it, as
the source does. -/
def run_clocked (_now : String) (inp : FileOutcome) : RunOutput :=
  run inp

/-! ### Spec-side definitions

These follow the specification's words (the 12-column OutputRow with named
fields, the column list of the header, SQL quote-unescaping) and are compared
against the source-side definitions above. -/

/-- The spec's OutputRow: the fixed 12-column tuple of the `profiles` table,
each field held as the SQL text to be emitted. -/
structure OutputRow where
  discord_id : String
  vrchat_id : String
  vrchat_name : String
  added_at : String
  updated_at : String
  created_by : String
  updated_by : String
  is_verified : String
  verification_id : String
  verified_at : String
  verified_from : String
  verified_by : String

/-- The 12 fields of an OutputRow, in the column order of the statement. -/
def OutputRow.fieldList (r : OutputRow) : List String :=
  [r.discord_id, r.vrchat_id, r.vrchat_name, r.added_at, r.updated_at,
   r.created_by, r.updated_by, r.is_verified, r.verification_id,
   r.verified_at, r.verified_from, r.verified_by]

/-- Serialize an OutputRow as one parenthesized tuple. -/
def OutputRow.render (r : OutputRow) : String :=
  "(" ++ String.intercalate ", " r.fieldList ++ ")"

/-- The spec's mapping from a valid InputRecord to an OutputRow:
`created_by = discord_id`, `verified_at = added_at`,
`updated_by = verified_by = ADMIN_ID`, `verified_from = GROUP_ID`,
`is_verified` the raw token `TRUE`, `verification_id` the raw `1`,
`updated_at` the raw `CURRENT_TIMESTAMP`, strings escaped. -/
def specRow (d v n a : String) : OutputRow where
  discord_id := escape_sql_string (some d)
  vrchat_id := escape_sql_string (some v)
  vrchat_name := escape_sql_string (some n)
  added_at := escape_sql_string (some a)
  updated_at := "CURRENT_TIMESTAMP"
  created_by := escape_sql_string (some d)
  updated_by := escape_sql_string (some ADMIN_ID)
  is_verified := "TRUE"
  verification_id := "1"
  verified_at := escape_sql_string (some a)
  verified_from := escape_sql_string (some GROUP_ID)
  verified_by := escape_sql_string (some ADMIN_ID)

/-- The spec's OutputRow built from a parsed row's four extracted fields. -/
def rowSpec (row : Row) : OutputRow :=
  specRow (getField row "discord_id") (getField row "vrchat_id")
    (getField row "vrchat_name") (getField row "added_at")

/-- Serialization of the spec's OutputRow for a parsed row. -/
def renderSpecRow (row : Row) : String :=
  (rowSpec row).render

/-- The 12 column names of the `INSERT` statement, in order. -/
def columnNames : List String :=
  ["discord_id", "vrchat_id", "vrchat_name", "added_at", "updated_at",
   "created_by", "updated_by", "is_verified", "verification_id",
   "verified_at", "verified_from", "verified_by"]

/-- The header as the spec describes it: `INSERT INTO profiles (` followed by
the column names, then `) VALUES` and a newline. -/
def specHeader : String :=
  "INSERT INTO profiles (\n" ++
  String.intercalate ",\n" (columnNames.map (fun c => "    " ++ c)) ++
  "\n) VALUES\n"

/-- Standard SQL quote-unescaping on characters: each doubled single quote
becomes one single quote. -/
def sqlUnescapeChars : List Char → List Char
  | [] => []
  | [c] => [c]
  | c :: c2 :: cs =>
    if c = '\'' ∧ c2 = '\'' then '\'' :: sqlUnescapeChars cs
    else c :: sqlUnescapeChars (c2 :: cs)

/-- The spec's inverse transformation on an emitted literal: strip the
surrounding quotes, then replace each doubled quote by a single quote. -/
def unescape_sql_literal (lit : String) : String :=
  String.mk (sqlUnescapeChars (lit.data.drop 1).dropLast)

/-! ### Helper lemmas -/

/-- Escaping produces the empty character list only from the empty list. -/
theorem sqlEscapeChars_eq_nil_iff (l : List Char) :
    sqlEscapeChars l = [] ↔ l = [] := by
  cases l with
  | nil => simp [sqlEscapeChars]
  | cons c cs =>
    constructor
    · intro h
      by_cases hc : c = '\''
      · simp [sqlEscapeChars, hc] at h
      · simp [sqlEscapeChars, hc] at h
    · intro h
      cases h

/-- Quote-unescaping undoes quote-escaping on character lists. -/
theorem sqlUnescapeChars_sqlEscapeChars (l : List Char) :
    sqlUnescapeChars (sqlEscapeChars l) = l := by
  induction l with
  | nil => rfl
  | cons c cs ih =>
    by_cases hc : c = '\''
    · subst hc
      simp [sqlEscapeChars, sqlUnescapeChars, ih]
    · rw [sqlEscapeChars, if_neg hc]
      cases h : sqlEscapeChars cs with
      | nil =>
        have hcs : cs = [] := (sqlEscapeChars_eq_nil_iff cs).mp h
        subst hcs
        rfl
      | cons d ds =>
        rw [sqlUnescapeChars, if_neg]
        · rw [← h, ih]
        · intro hand
          exact hc hand.1

/-- Adjacent literals around the `CURRENT_TIMESTAMP` token merge. -/
theorem append_merge_ct (x : String) :
    ", " ++ ("CURRENT_TIMESTAMP" ++ (", " ++ x)) = ", CURRENT_TIMESTAMP, " ++ x := by
  apply String.ext
  simp only [String.data_append]
  rfl

/-- Adjacent literals around the `TRUE` and `1` tokens merge. -/
theorem append_merge_true_one (x : String) :
    ", " ++ ("TRUE" ++ (", " ++ ("1" ++ (", " ++ x)))) = ", TRUE, 1, " ++ x := by
  apply String.ext
  simp only [String.data_append]
  rfl

/-- The f-string tuple of the source equals the rendering of the spec's
OutputRow on the same four fields. -/
theorem values_row_eq_render (d v n a : String) :
    values_row d v n a = (specRow d v n a).render := by
  simp only [values_row, OutputRow.render, OutputRow.fieldList, specRow,
    String.intercalate, String.intercalate.go, String.append_assoc,
    append_merge_ct, append_merge_true_one]

/-- The values accumulated by the row loop are exactly the valid rows, in
order, each rendered through the spec's OutputRow. -/
theorem processRows_fst (rows : List Row) (k : Nat) :
    (processRows rows k).1 = (rows.filter validRow).map renderSpecRow := by
  induction rows generalizing k with
  | nil => rfl
  | cons r rest ih =>
    by_cases h : validRow r
    · simp [processRows, h, ih, renderSpecRow, rowSpec, values_row_eq_render]
    · simp [processRows, h, ih]

/-- The escaped text of a non-empty string: an opening quote, the doubled
characters, a closing quote. -/
theorem escape_data_of_ne (s : String) (h : s ≠ "") :
    (escape_sql_string (some s)).data =
      '\'' :: (sqlEscapeChars s.data ++ ['\'']) := by
  simp only [escape_sql_string, if_neg h, String.data_append]
  rfl

/-! ### Concrete rows used by the witnesses -/

/-- A data row whose four required fields are all non-empty. -/
def exampleValidRow : Row :=
  [("discord_id", "111"), ("vrchat_id", "usr_aaa"),
   ("vrchat_name", "Alice"), ("added_at", "2024-01-01")]

/-- A data row with an empty `discord_id`. -/
def exampleInvalidRow : Row :=
  [("discord_id", ""), ("vrchat_id", "usr_bbb"),
   ("vrchat_name", "Bob"), ("added_at", "2024-01-02")]

/-! ### Claims -/

/-- C1: a data row whose four fields `discord_id`, `vrchat_id`,
`vrchat_name`, `added_at` are non-empty after trimming contributes exactly
one tuple, with no diagnostic, and that tuple renders the spec's OutputRow:
position 1 is the escaped `discord_id`, `created_by` equals `discord_id`,
`verified_at` equals `added_at`, `updated_by` and `verified_by` equal the
admin identifier, `verified_from` equals the group identifier, `is_verified`
is the raw token `TRUE`, `verification_id` is the raw `1`, and `updated_at`
is the raw token `CURRENT_TIMESTAMP`. -/
theorem C1_valid_row_unique_tuple (row : Row) (rest : List Row) (k : Nat)
    (h : validRow row = true) :
    (processRows (row :: rest) k).1 =
      (rowSpec row).render :: (processRows rest (k + 1)).1 ∧
    (processRows (row :: rest) k).2 = (processRows rest (k + 1)).2 ∧
    (rowSpec row).discord_id = escape_sql_string (some (getField row "discord_id")) ∧
    (rowSpec row).created_by = escape_sql_string (some (getField row "discord_id")) ∧
    (rowSpec row).verified_at = escape_sql_string (some (getField row "added_at")) ∧
    (rowSpec row).updated_by = escape_sql_string (some ADMIN_ID) ∧
    (rowSpec row).verified_by = escape_sql_string (some ADMIN_ID) ∧
    (rowSpec row).verified_from = escape_sql_string (some GROUP_ID) ∧
    (rowSpec row).is_verified = "TRUE" ∧
    (rowSpec row).verification_id = "1" ∧
    (rowSpec row).updated_at = "CURRENT_TIMESTAMP" := by
  refine ⟨?_, ?_, rfl, rfl, rfl, rfl, rfl, rfl, rfl, rfl, rfl⟩
  · simp [processRows, h, rowSpec, values_row_eq_render]
  · simp [processRows, h]

/-- Witness for C1 on a concrete valid row. -/
theorem C1_witness :
    validRow exampleValidRow = true ∧
    ((processRows (exampleValidRow :: []) 2).1 =
        (rowSpec exampleValidRow).render :: (processRows [] (2 + 1)).1 ∧
      (processRows (exampleValidRow :: []) 2).2 = (processRows [] (2 + 1)).2 ∧
      (rowSpec exampleValidRow).discord_id =
        escape_sql_string (some (getField exampleValidRow "discord_id")) ∧
      (rowSpec exampleValidRow).created_by =
        escape_sql_string (some (getField exampleValidRow "discord_id")) ∧
      (rowSpec exampleValidRow).verified_at =
        escape_sql_string (some (getField exampleValidRow "added_at")) ∧
      (rowSpec exampleValidRow).updated_by = escape_sql_string (some ADMIN_ID) ∧
      (rowSpec exampleValidRow).verified_by = escape_sql_string (some ADMIN_ID) ∧
      (rowSpec exampleValidRow).verified_from = escape_sql_string (some GROUP_ID) ∧
      (rowSpec exampleValidRow).is_verified = "TRUE" ∧
      (rowSpec exampleValidRow).verification_id = "1" ∧
      (rowSpec exampleValidRow).updated_at = "CURRENT_TIMESTAMP") :=
  ⟨by decide, C1_valid_row_unique_tuple exampleValidRow [] 2 (by decide)⟩

/-- C2: escaping a non-empty string yields a literal that starts and ends
with a single quote, and the spec's inverse transformation (strip the
surrounding quotes, replace each doubled quote by one quote) recovers the
string exactly. -/
theorem C2_escape_roundtrip (s : String) (h : s ≠ "") :
    (escape_sql_string (some s)).data.head? = some '\'' ∧
    (escape_sql_string (some s)).data.getLast? = some '\'' ∧
    unescape_sql_literal (escape_sql_string (some s)) = s := by
  have hdata := escape_data_of_ne s h
  refine ⟨by rw [hdata]; rfl, ?_, ?_⟩
  · rw [hdata, ← List.cons_append]
    exact List.getLast?_concat _
  · rw [unescape_sql_literal, hdata]
    have hdrop : (('\'' : Char) :: (sqlEscapeChars s.data ++ ['\''])).drop 1
        = sqlEscapeChars s.data ++ ['\''] := rfl
    rw [hdrop, List.dropLast_concat, sqlUnescapeChars_sqlEscapeChars]

/-- Witness for C2 on a string containing a single quote. -/
theorem C2_witness :
    "Al'ice" ≠ "" ∧
    ((escape_sql_string (some "Al'ice")).data.head? = some '\'' ∧
     (escape_sql_string (some "Al'ice")).data.getLast? = some '\'' ∧
     unescape_sql_literal (escape_sql_string (some "Al'ice")) = "Al'ice") :=
  ⟨by decide, C2_escape_roundtrip "Al'ice" (by decide)⟩

/-- C3: a data row with any of the four required fields absent or empty
after trimming contributes no tuple, adds one warning naming its row number,
and leaves the processing of the remaining rows unchanged. -/
theorem C3_invalid_row_skipped (row : Row) (rest : List Row) (k : Nat)
    (h : getField row "discord_id" = "" ∨ getField row "vrchat_id" = "" ∨
         getField row "vrchat_name" = "" ∨ getField row "added_at" = "") :
    (processRows (row :: rest) k).1 = (processRows rest (k + 1)).1 ∧
    (processRows (row :: rest) k).2 =
      ("Warning: Row " ++ toString k ++ " skipped due to missing required fields")
        :: (processRows rest (k + 1)).2 ∧
    (processRows (row :: rest) k).1.length = (processRows rest (k + 1)).1.length := by
  have hv : validRow row = false := by
    rcases h with h | h | h | h <;> simp [validRow, h]
  refine ⟨?_, ?_, ?_⟩ <;> simp [processRows, hv]

/-- Witness for C3 on a concrete row with an empty `discord_id`. -/
theorem C3_witness :
    (getField exampleInvalidRow "discord_id" = "" ∨
     getField exampleInvalidRow "vrchat_id" = "" ∨
     getField exampleInvalidRow "vrchat_name" = "" ∨
     getField exampleInvalidRow "added_at" = "") ∧
    ((processRows (exampleInvalidRow :: []) 2).1 = (processRows [] (2 + 1)).1 ∧
     (processRows (exampleInvalidRow :: []) 2).2 =
       ("Warning: Row " ++ toString 2 ++ " skipped due to missing required fields")
         :: (processRows [] (2 + 1)).2 ∧
     (processRows (exampleInvalidRow :: []) 2).1.length =
       (processRows [] (2 + 1)).1.length) :=
  ⟨by decide, C3_invalid_row_skipped exampleInvalidRow [] 2 (by decide)⟩

/-- C4: with at least one valid row, the output file holds exactly one
statement: the header naming the 12 columns in order, then `VALUES`, then
the tuples joined by the two-character separator comma-newline, terminated
by a semicolon; and the source's header literal equals the spec's header
built from the ordered column-name list. -/
theorem C4_single_statement (rows : List Row) (h : (processRows rows 2).1 ≠ []) :
    (convert_tsv_to_sql rows).file =
      some (specHeader ++ String.intercalate ",\n" (processRows rows 2).1 ++ ";") ∧
    sqlHeader = specHeader ∧
    columnNames.length = 12 := by
  have hhdr : sqlHeader = specHeader := by rfl
  have hne : (processRows rows 2).1.isEmpty = false := by
    simp [List.isEmpty_iff, h]
  refine ⟨?_, hhdr, rfl⟩
  rw [convert_tsv_to_sql]
  simp only [hne, Bool.false_eq_true, if_false, hhdr]

/-- Witness for C4 on a concrete one-valid-row input. -/
theorem C4_witness :
    (processRows (exampleValidRow :: []) 2).1 ≠ [] ∧
    ((convert_tsv_to_sql (exampleValidRow :: [])).file =
       some (specHeader ++
         String.intercalate ",\n" (processRows (exampleValidRow :: []) 2).1 ++ ";") ∧
     sqlHeader = specHeader ∧
     columnNames.length = 12) :=
  ⟨by decide, C4_single_statement (exampleValidRow :: []) (by decide)⟩

/-- C5: when no data row is valid, the output file is never written, the run
reports that no valid records were found, and the record count is zero. -/
theorem C5_zero_valid_rows (rows : List Row) (h : ∀ r ∈ rows, validRow r = false) :
    (convert_tsv_to_sql rows).file = none ∧
    "No valid records found to convert" ∈ (convert_tsv_to_sql rows).messages ∧
    (processRows rows 2).1.length = 0 := by
  have hf : rows.filter validRow = [] := by
    rw [List.filter_eq_nil_iff]
    intro a ha
    simp [h a ha]
  have h1 : (processRows rows 2).1 = [] := by
    rw [processRows_fst, hf]
    rfl
  refine ⟨?_, ?_, by simp [h1]⟩ <;> simp [convert_tsv_to_sql, h1]

/-- Witness for C5 on a concrete input whose only row is invalid. -/
theorem C5_witness :
    (∀ r ∈ (exampleInvalidRow :: []), validRow r = false) ∧
    ((convert_tsv_to_sql (exampleInvalidRow :: [])).file = none ∧
     "No valid records found to convert"
       ∈ (convert_tsv_to_sql (exampleInvalidRow :: [])).messages ∧
     (processRows (exampleInvalidRow :: []) 2).1.length = 0) :=
  ⟨by decide, C5_zero_valid_rows (exampleInvalidRow :: []) (by decide)⟩

/-- C6 (amended): no exception escapes (the model is a total function) and
every failure ends the run with a diagnostic after whatever warnings were
already printed.  A missing input file or an error at open or during
reading leaves the output file unwritten; a failure opening the output
file leaves it absent; a failure during writing leaves the output file
holding exactly the successfully written prefix of the three pieces, and
the success messages are skipped.  The fault-free instance is the approved
`convert_tsv_to_sql`. -/
theorem C6_errors_reported (m : String) (pre rows : List Row) (k : Nat)
    (h : (processRows rows 2).1 ≠ []) :
    (run_with_fault .noFault .fileNotFound).file = none ∧
    (run_with_fault .noFault .fileNotFound).messages =
      ["Error: File 'data.tsv' not found"] ∧
    (run_with_fault .noFault (.openError m)).file = none ∧
    (run_with_fault .noFault (.openError m)).messages = ["Error: " ++ m] ∧
    (run_with_fault .noFault (.readErrorAfter pre m)).file = none ∧
    (run_with_fault .noFault (.readErrorAfter pre m)).messages =
      (processRows pre 2).2 ++ ["Error: " ++ m] ∧
    (convert_with_fault (.openFail m) rows).file = none ∧
    (convert_with_fault (.openFail m) rows).messages =
      (processRows rows 2).2 ++ ["Error: " ++ m] ∧
    (convert_with_fault (.failAfter k m) rows).file =
      some (String.join ((writePieces (processRows rows 2).1).take k)) ∧
    (convert_with_fault (.failAfter k m) rows).messages =
      (processRows rows 2).2 ++ ["Error: " ++ m] ∧
    convert_with_fault .noFault rows = convert_tsv_to_sql rows := by
  have hne : (processRows rows 2).1.isEmpty = false := by
    simp [List.isEmpty_iff, h]
  refine ⟨rfl, rfl, rfl, rfl, rfl, rfl, ?_, ?_, ?_, ?_, rfl⟩
  all_goals
    rw [convert_with_fault]
    simp only [hne, Bool.false_eq_true, if_false]

/-- Witness for C6 at a concrete error message, read prefix, valid row and
write fault. -/
theorem C6_witness :
    (processRows (exampleValidRow :: []) 2).1 ≠ [] ∧
    ((run_with_fault .noFault .fileNotFound).file = none ∧
     (run_with_fault .noFault .fileNotFound).messages =
       ["Error: File 'data.tsv' not found"] ∧
     (run_with_fault .noFault (.openError "disk full")).file = none ∧
     (run_with_fault .noFault (.openError "disk full")).messages =
       ["Error: " ++ "disk full"] ∧
     (run_with_fault .noFault
        (.readErrorAfter (exampleInvalidRow :: []) "disk full")).file = none ∧
     (run_with_fault .noFault
        (.readErrorAfter (exampleInvalidRow :: []) "disk full")).messages =
       (processRows (exampleInvalidRow :: []) 2).2 ++ ["Error: " ++ "disk full"] ∧
     (convert_with_fault (.openFail "disk full") (exampleValidRow :: [])).file = none ∧
     (convert_with_fault (.openFail "disk full") (exampleValidRow :: [])).messages =
       (processRows (exampleValidRow :: []) 2).2 ++ ["Error: " ++ "disk full"] ∧
     (convert_with_fault (.failAfter 1 "disk full") (exampleValidRow :: [])).file =
       some (String.join
         ((writePieces (processRows (exampleValidRow :: []) 2).1).take 1)) ∧
     (convert_with_fault (.failAfter 1 "disk full") (exampleValidRow :: [])).messages =
       (processRows (exampleValidRow :: []) 2).2 ++ ["Error: " ++ "disk full"] ∧
     convert_with_fault .noFault (exampleValidRow :: []) =
       convert_tsv_to_sql (exampleValidRow :: [])) :=
  ⟨by decide,
   C6_errors_reported "disk full" (exampleInvalidRow :: []) (exampleValidRow :: [])
     1 (by decide)⟩

/-- The spec's two-data-row example input. -/
def exampleInput : String :=
  "discord_id\tvrchat_id\tvrchat_name\tadded_at\n111\tusr_aaa\tAl'ice\t2024-01-01\n\tusr_bbb\tBob\t2024-01-02"

/-- The single tuple the spec expects for the example input. -/
def exampleTuple : String :=
  "('111', 'usr_aaa', 'Al''ice', '2024-01-01', CURRENT_TIMESTAMP, '111', '356253258613915663', TRUE, 1, '2024-01-01', '1392882468704489552', '356253258613915663')"

set_option maxRecDepth 8000 in
/-- C6 as stated is refuted: on the spec's example input, an I/O failure
striking after the first `write` call leaves the output file produced and
holding the header — not absent or unwritten — and the earlier row-3
warning precedes the diagnostic, so the run's output is not a lone
diagnostic either. -/
theorem C6_counterexample :
    (run_with_fault (.failAfter 1 "disk full") (.ok exampleInput)).file ≠ none ∧
    (run_with_fault (.failAfter 1 "disk full") (.ok exampleInput)).file =
      some sqlHeader ∧
    (run_with_fault (.failAfter 1 "disk full") (.ok exampleInput)).messages =
      ["Warning: Row 3 skipped due to missing required fields",
       "Error: disk full"] := by
  refine ⟨by decide, by decide, by decide⟩

set_option maxRecDepth 8000 in
/-- C7: on the spec's example input the run emits exactly the expected
single tuple, reports one record, and skips the second data row with a
diagnostic naming row 3 (data rows are numbered from 2). -/
theorem C7_end_to_end :
    (run (.ok exampleInput)).file = some (sqlHeader ++ exampleTuple ++ ";") ∧
    (run (.ok exampleInput)).messages =
      ["Warning: Row 3 skipped due to missing required fields",
       "Success! Generated INSERT statement with 1 records",
       "Output saved to: " ++ OUTPUT_FILE] ∧
    (processRows (parseTSV exampleInput) 2).1.length = 1 := by
  refine ⟨by decide, by decide, by decide⟩

/-- C8: `escape_sql_string` maps `None` and the empty string to the raw
token `NULL`, and never yields the two-character literal of two quotes. -/
theorem C8_empty_to_null (v : Option String) :
    escape_sql_string none = "NULL" ∧
    escape_sql_string (some "") = "NULL" ∧
    escape_sql_string v ≠ "''" := by
  refine ⟨rfl, rfl, ?_⟩
  match v with
  | none => decide
  | some s =>
    by_cases hs : s = ""
    · subst hs
      decide
    · intro heq
      have hd := congrArg String.data heq
      rw [escape_data_of_ne s hs] at hd
      have hlen := congrArg List.length hd
      simp only [List.length_cons, List.length_append, List.length_singleton] at hlen
      have hz : (sqlEscapeChars s.data).length = 0 := by
        have : ("''".data).length = 2 := by decide
        omega
      have hnil : sqlEscapeChars s.data = [] := List.length_eq_zero.mp hz
      have hsnil : s.data = [] := (sqlEscapeChars_eq_nil_iff s.data).mp hnil
      exact hs (String.ext hsnil)

/-- Witness for C8 at a concrete non-empty value. -/
theorem C8_witness :
    escape_sql_string none = "NULL" ∧
    escape_sql_string (some "") = "NULL" ∧
    escape_sql_string (some "x") ≠ "''" :=
  C8_empty_to_null (some "x")

/-- C9: the run's output is a pure function of the input file outcome — the
ambient clock parameter is ignored (the imported `datetime` is never used),
so two runs on the same input are identical, and `updated_at` is always the
raw token `CURRENT_TIMESTAMP`. -/
theorem C9_deterministic (now1 now2 : String) (inp : FileOutcome)
    (d v n a : String) :
    run_clocked now1 inp = run_clocked now2 inp ∧
    run_clocked now1 inp = run inp ∧
    (specRow d v n a).updated_at = "CURRENT_TIMESTAMP" :=
  ⟨rfl, rfl, rfl⟩

/-- Witness for C9 at concrete clock values and input. -/
theorem C9_witness :
    run_clocked "2024-01-01T00:00:00" (.ok exampleInput) =
      run_clocked "2025-06-30T12:34:56" (.ok exampleInput) ∧
    run_clocked "2024-01-01T00:00:00" (.ok exampleInput) = run (.ok exampleInput) ∧
    (specRow "d" "v" "n" "a").updated_at = "CURRENT_TIMESTAMP" :=
  C9_deterministic "2024-01-01T00:00:00" "2025-06-30T12:34:56" (.ok exampleInput)
    "d" "v" "n" "a"

/-- C10: the emitted tuples are exactly the valid rows in their original
order, each rendered through the spec's OutputRow, and the record count in
the success message equals the number of emitted tuples. -/
theorem C10_order_and_count (rows : List Row)
    (h : (processRows rows 2).1 ≠ []) :
    (processRows rows 2).1 = (rows.filter validRow).map renderSpecRow ∧
    (processRows rows 2).1.length = (rows.filter validRow).length ∧
    ("Success! Generated INSERT statement with " ++
       toString (rows.filter validRow).length ++ " records")
      ∈ (convert_tsv_to_sql rows).messages := by
  have h1 := processRows_fst rows 2
  have hne : (processRows rows 2).1.isEmpty = false := by
    simp [List.isEmpty_iff, h]
  refine ⟨h1, by simp [h1], ?_⟩
  rw [convert_tsv_to_sql]
  simp only [hne, Bool.false_eq_true, if_false]
  simp [h1]

/-- Witness for C10 on a concrete two-row input with one valid row. -/
theorem C10_witness :
    (processRows (exampleValidRow :: exampleInvalidRow :: []) 2).1 ≠ [] ∧
    ((processRows (exampleValidRow :: exampleInvalidRow :: []) 2).1 =
       ((exampleValidRow :: exampleInvalidRow :: []).filter validRow).map
         renderSpecRow ∧
     (processRows (exampleValidRow :: exampleInvalidRow :: []) 2).1.length =
       ((exampleValidRow :: exampleInvalidRow :: []).filter validRow).length ∧
     ("Success! Generated INSERT statement with " ++
        toString ((exampleValidRow :: exampleInvalidRow :: []).filter
          validRow).length ++ " records")
       ∈ (convert_tsv_to_sql (exampleValidRow :: exampleInvalidRow :: [])).messages) :=
  ⟨by decide,
   C10_order_and_count (exampleValidRow :: exampleInvalidRow :: []) (by decide)⟩

end ConvertProd
